import Mathlib

/-
Verification of the claims about asyncio_redis/connection.py: the resilient
Connection manager (backoff policy, reconnect loop, transport-loss callback,
command forwarding facade).

The embedding is shallow.  The retry interval is modelled as a rational
number: starting from 0.5 and applying min(60, 1.5*x) keeps every reachable
value an exact dyadic rational (numerators far below 2^53), so the Python
float computation coincides with the rational one on all reachable states.
The reconnect loop (connection.py lines 85-99) is driven by a schedule of
attempt results (success / OSError / any other exception), mirroring how
the event loop would report each create_connection call.
-/

namespace AsyncioRedis

/-- The target of a single connect attempt: either a TCP connection to
host:port (loop.create_connection, line 89) or a unix domain socket
(loop.create_unix_connection, line 91). -/
inductive Target
  | tcp (host : Option String) (port : Nat)
  | unix (path : String)
deriving DecidableEq, Repr

/-- State of a Connection instance as set up by Connection.create
(connection.py lines 42-48): host, port, unixsocket, the captured
auto_reconnect flag of the connection_lost closure, and the mutable
_retry_interval, initially 0.5. -/
structure Connection where
  host : Option String
  port : Nat
  unixsocket : Option String
  auto_reconnect : Bool
  retry_interval : ℚ
deriving DecidableEq, Repr

/-- Connection.create, lines 42-57: stores the endpoint fields and sets
_retry_interval = 0.5.  The source performs no validation of the endpoint
arguments; there is no raise statement on this path, so the result is
always ok.  (The initial call to _reconnect, line 60, is modelled
separately by _reconnect below.) -/
def Connection.create (host : Option String) (port : Nat)
    (auto_reconnect : Bool) (unixsocket : Option String) :
    Except Unit Connection :=
  Except.ok ⟨host, port, unixsocket, auto_reconnect, (1 : ℚ)/2⟩

/-- _get_retry_interval, lines 69-71. -/
def _get_retry_interval (c : Connection) : ℚ :=
  c.retry_interval

/-- _reset_retry_interval, lines 73-75: set the interval back to 0.5. -/
def _reset_retry_interval (c : Connection) : Connection :=
  ⟨c.host, c.port, c.unixsocket, c.auto_reconnect, (1 : ℚ)/2⟩

/-- The arithmetic core of _increase_retry_interval, line 79:
min(60, 1.5 * interval). -/
def increaseInterval (x : ℚ) : ℚ :=
  min 60 ((3 : ℚ)/2 * x)

/-- _increase_retry_interval, lines 77-79. -/
def _increase_retry_interval (c : Connection) : Connection :=
  ⟨c.host, c.port, c.unixsocket, c.auto_reconnect,
    increaseInterval c.retry_interval⟩

/-- n consecutive failed-attempt increases applied to a connection. -/
def failN (c : Connection) : ℕ → Connection
  | 0 => c
  | n + 1 => _increase_retry_interval (failN c n)

/-- n consecutive increases of a bare interval value. -/
def iterIncrease (x : ℚ) : ℕ → ℚ
  | 0 => x
  | n + 1 => increaseInterval (iterIncrease x n)

/-- The interval after n failures starting from the initial 0.5. -/
def intervalSeq (n : ℕ) : ℚ :=
  iterIncrease ((1 : ℚ)/2) n

/-- The target a connect attempt uses, lines 88-91: the unix socket when
unixsocket is not None, otherwise TCP to (host, port). -/
def attemptTarget (c : Connection) : Target :=
  match c.unixsocket with
  | none => Target.tcp c.host c.port
  | some p => Target.unix p

/-- Result of one connect attempt as seen by the reconnect loop: the
attempt succeeds, raises OSError, or raises an exception of any other
class. -/
inductive AttemptResult
  | success
  | osError
  | otherError
deriving DecidableEq, Repr

/-- Outcome of running the reconnect loop against a schedule of attempt
results: the loop returned with a connection (recording the sleep
durations it waited), an uncaught exception propagated out of the loop
(again recording the sleeps performed before that), or the schedule was
exhausted with the loop still running. -/
inductive ReconnectOutcome
  | connected (c : Connection) (sleeps : List ℚ)
  | raised (sleeps : List ℚ)
  | running (c : Connection) (sleeps : List ℚ)
deriving DecidableEq, Repr

/-- Prepend one performed sleep to the sleep record of an outcome. -/
def addSleep (q : ℚ) : ReconnectOutcome → ReconnectOutcome
  | ReconnectOutcome.connected c s => ReconnectOutcome.connected c (q :: s)
  | ReconnectOutcome.raised s => ReconnectOutcome.raised (q :: s)
  | ReconnectOutcome.running c s => ReconnectOutcome.running c (q :: s)

/-- _reconnect, lines 85-99, driven by a schedule of attempt results.
On success: _reset_retry_interval, return (lines 92-93).  On OSError:
_increase_retry_interval, read _get_retry_interval, sleep that long,
retry (lines 94-99).  Any other exception is not matched by the except
clause and propagates, ending the loop. -/
def _reconnect : Connection → List AttemptResult → ReconnectOutcome
  | c, [] => ReconnectOutcome.running c []
  | c, AttemptResult.success :: _ =>
      ReconnectOutcome.connected (_reset_retry_interval c) []
  | _, AttemptResult.otherError :: _ => ReconnectOutcome.raised []
  | c, AttemptResult.osError :: rest =>
      addSleep (_get_retry_interval (_increase_retry_interval c))
        (_reconnect (_increase_retry_interval c) rest)

/-- The sleeps performed by n consecutive OSError iterations starting
from connection state c (each iteration increases first, then sleeps the
increased interval). -/
def osSleeps : Connection → ℕ → List ℚ
  | _, 0 => []
  | c, n + 1 =>
      _get_retry_interval (_increase_retry_interval c) ::
        osSleeps (_increase_retry_interval c) n

/-- The targets attempted by the reconnect loop over a schedule: one per
loop iteration, until the loop returns or an exception propagates. -/
def attemptsOf : Connection → List AttemptResult → List Target
  | _, [] => []
  | c, AttemptResult.success :: _ => [attemptTarget c]
  | c, AttemptResult.otherError :: _ => [attemptTarget c]
  | c, AttemptResult.osError :: rest =>
      attemptTarget c :: attemptsOf (_increase_retry_interval c) rest

/-- The sleep record of a reconnect outcome. -/
def sleepsOf : ReconnectOutcome → List ℚ
  | ReconnectOutcome.connected _ s => s
  | ReconnectOutcome.raised s => s
  | ReconnectOutcome.running _ s => s

/-- The work the connection_lost callback can schedule on the loop. -/
inductive ScheduledTask
  | reconnectLoop
deriving DecidableEq, Repr

/-- The connection_lost callback, lines 51-53: schedules the reconnect
loop as a fire-and-forget task when auto_reconnect is true, and does
nothing otherwise. -/
def connection_lost (auto_reconnect : Bool) : Option ScheduledTask :=
  if auto_reconnect then some ScheduledTask.reconnectLoop else none

/-- Whether the manager holds a bound transport after a transport loss:
the loss fires connection_lost; only a scheduled reconnect loop that runs
to a successful connect rebinds the transport. -/
def boundAfterLoss (c : Connection) (schedule : List AttemptResult) : Bool :=
  match connection_lost c.auto_reconnect with
  | some ScheduledTask.reconnectLoop =>
      match _reconnect c schedule with
      | ReconnectOutcome.connected _ _ => true
      | _ => false
  | none => false

/-- Connection.__getattr__, lines 101-106: a name outside the recognized
command registry raises AttributeError; a recognized name resolves to the
identically named attribute of the protocol.  The registry _all_commands
and the protocol object live in the external protocol module, so they are
parameters here. -/
def getattr_conn {α : Type} (registry : List String) (proto : String → α)
    (name : String) : Except Unit α :=
  if name ∈ registry then Except.ok (proto name) else Except.error ()

/-! Helper lemmas, shared by several claims. -/

lemma increaseInterval_invariant (x : ℚ) (h1 : (1 : ℚ)/2 ≤ x) (h2 : x ≤ 60) :
    x ≤ increaseInterval x ∧ (1 : ℚ)/2 ≤ increaseInterval x ∧
      increaseInterval x ≤ 60 := by
  unfold increaseInterval
  refine ⟨le_min h2 (by linarith), le_min (by norm_num) (by linarith),
    min_le_left _ _⟩

lemma failN_retry_interval (c : Connection) (n : ℕ) :
    (failN c (n + 1)).retry_interval =
      increaseInterval ((failN c n).retry_interval) := rfl

lemma failN_bounds (c : Connection) (h1 : (1 : ℚ)/2 ≤ c.retry_interval)
    (h2 : c.retry_interval ≤ 60) (n : ℕ) :
    (1 : ℚ)/2 ≤ (failN c n).retry_interval ∧
      (failN c n).retry_interval ≤ 60 := by
  induction n with
  | zero => exact ⟨h1, h2⟩
  | succ n ih =>
      rw [failN_retry_interval]
      exact ⟨(increaseInterval_invariant _ ih.1 ih.2).2.1,
        (increaseInterval_invariant _ ih.1 ih.2).2.2⟩

lemma attemptTarget_increase (c : Connection) :
    attemptTarget (_increase_retry_interval c) = attemptTarget c := rfl

lemma attemptsOf_mem (s : List AttemptResult) :
    ∀ c t, t ∈ attemptsOf c s → t = attemptTarget c := by
  induction s with
  | nil => intro c t ht; simp [attemptsOf] at ht
  | cons a rest ih =>
      intro c t ht
      cases a with
      | success => simp [attemptsOf] at ht; exact ht
      | otherError => simp [attemptsOf] at ht; exact ht
      | osError =>
          simp only [attemptsOf, List.mem_cons] at ht
          rcases ht with h1 | h2
          · exact h1
          · rw [ih _ _ h2, attemptTarget_increase]

/-! The claims. -/

/-- Claim C1: starting from the initial interval 0.5, every sequence of
consecutive _increase_retry_interval calls leaves the retry interval
non-decreasing at every step, and the interval always stays between 0.5
and 60 seconds. -/
theorem backoff_monotone_bounded (c : Connection)
    (h : c.retry_interval = (1 : ℚ)/2) (n : ℕ) :
    (failN c n).retry_interval ≤ (failN c (n + 1)).retry_interval ∧
    (1 : ℚ)/2 ≤ (failN c n).retry_interval ∧
    (failN c n).retry_interval ≤ 60 := by
  have hb := failN_bounds c (le_of_eq h.symm) (by rw [h]; norm_num) n
  refine ⟨?_, hb.1, hb.2⟩
  rw [failN_retry_interval]
  exact (increaseInterval_invariant _ hb.1 hb.2).1

/-- Witness for C1 at a concrete connection and step count. -/
theorem backoff_monotone_bounded_witness :
    (Connection.mk (some "localhost") 6379 none true ((1 : ℚ)/2)).retry_interval
        = (1 : ℚ)/2 ∧
    ((failN ⟨some "localhost", 6379, none, true, (1 : ℚ)/2⟩ 3).retry_interval ≤
      (failN ⟨some "localhost", 6379, none, true, (1 : ℚ)/2⟩ 4).retry_interval ∧
    (1 : ℚ)/2 ≤ (failN ⟨some "localhost", 6379, none, true, (1 : ℚ)/2⟩ 3).retry_interval ∧
    (failN ⟨some "localhost", 6379, none, true, (1 : ℚ)/2⟩ 3).retry_interval ≤ 60) :=
  ⟨rfl, backoff_monotone_bounded ⟨some "localhost", 6379, none, true, (1 : ℚ)/2⟩ rfl 3⟩

/-- Claim C2, counterexample: with the endpoint unreachable for the first
two attempts and reachable on the third, the sleeps the loop performs are
0.75 and 1.125 seconds, not 0.5 and 0.75 as claimed: the loop increases
the interval before sleeping (lines 96-99), so the initial 0.5 is never
itself waited. -/
theorem reconnect_sleep_sequence_counterexample :
    sleepsOf (_reconnect ⟨some "localhost", 6379, none, true, (1 : ℚ)/2⟩
        [AttemptResult.osError, AttemptResult.osError, AttemptResult.success])
      = [(3 : ℚ)/4, (9 : ℚ)/8] ∧
    ([(3 : ℚ)/4, (9 : ℚ)/8] ≠ [(1 : ℚ)/2, (3 : ℚ)/4]) := by
  constructor
  · simp only [_reconnect, addSleep, sleepsOf, _increase_retry_interval,
      _get_retry_interval, _reset_retry_interval, increaseInterval]
    norm_num
  · intro hcon
    rw [List.cons.injEq, List.cons.injEq] at hcon
    norm_num at hcon

/-- Claim C2, amended: with the endpoint unreachable for exactly the first
two attempts and reachable on the third, the sequence of backoff intervals
waited before success is 0.75 s then 1.125 s, and after the successful
third attempt the interval is reset to 0.5 s. -/
theorem reconnect_sleep_sequence :
    _reconnect ⟨some "localhost", 6379, none, true, (1 : ℚ)/2⟩
        [AttemptResult.osError, AttemptResult.osError, AttemptResult.success]
      = ReconnectOutcome.connected
          ⟨some "localhost", 6379, none, true, (1 : ℚ)/2⟩
          [(3 : ℚ)/4, (9 : ℚ)/8] := by
  simp only [_reconnect, addSleep, _increase_retry_interval,
    _get_retry_interval, _reset_retry_interval, increaseInterval]
  norm_num

/-- Claim C3: after any number of consecutive failure-driven increases, a
single _reset_retry_interval restores the interval to exactly 0.5; and the
reconnect loop, on a successful attempt, returns that reset connection
(lines 92-93). -/
theorem reset_restores_initial (c : Connection) (n : ℕ)
    (s : List AttemptResult) :
    (_reset_retry_interval (failN c n)).retry_interval = (1 : ℚ)/2 ∧
    _reconnect (failN c n) (AttemptResult.success :: s)
      = ReconnectOutcome.connected (_reset_retry_interval (failN c n)) [] :=
  ⟨rfl, rfl⟩

/-- Claim C4: a name outside the recognized command registry raises
AttributeError (modelled as the error result) and is never forwarded: the
result does not depend on the protocol object at all. -/
theorem getattr_unknown_raises {α : Type} (registry : List String)
    (proto : String → α) (name : String) (h : name ∉ registry) :
    getattr_conn registry proto name = Except.error () ∧
    ∀ proto2 : String → α,
      getattr_conn registry proto name = getattr_conn registry proto2 name := by
  refine ⟨?_, fun proto2 => ?_⟩ <;> simp [getattr_conn, h]

/-- Witness for C4 at a concrete registry and unknown name. -/
theorem getattr_unknown_raises_witness :
    "zzz" ∉ ["get", "set"] ∧
    getattr_conn ["get", "set"] String.length "zzz" = Except.error () :=
  ⟨by decide,
    (getattr_unknown_raises ["get", "set"] String.length "zzz" (by decide)).1⟩

/-- Claim C5: a name in the recognized command registry resolves to the
identically named operation of the bound protocol object, so the manager
returns exactly what the protocol returns for that name. -/
theorem getattr_known_forwards {α : Type} (registry : List String)
    (proto : String → α) (name : String) (h : name ∈ registry) :
    getattr_conn registry proto name = Except.ok (proto name) := by
  simp [getattr_conn, h]

/-- Witness for C5 at a concrete registry and known name. -/
theorem getattr_known_forwards_witness :
    "get" ∈ ["get", "set"] ∧
    getattr_conn ["get", "set"] String.length "get"
      = Except.ok (String.length "get") :=
  ⟨by decide,
    getattr_known_forwards ["get", "set"] String.length "get" (by decide)⟩

/-- Claim C6: the reconnect loop catches and retries only OSError; an
exception of any other class propagates out of the loop immediately,
whatever the rest of the schedule holds, with exactly the sleeps of the
preceding OSError iterations performed. -/
theorem reconnect_catches_only_oserror (c : Connection) (n : ℕ)
    (rest : List AttemptResult) :
    _reconnect c
        (List.replicate n AttemptResult.osError ++
          AttemptResult.otherError :: rest)
      = ReconnectOutcome.raised (osSleeps c n) := by
  induction n generalizing c with
  | zero => rfl
  | succ n ih =>
      simp only [List.replicate_succ, List.cons_append, _reconnect,
        List.append_eq, ih, addSleep, osSleeps]

/-- Claim C7: the transport-loss callback schedules the reconnect loop
exactly when auto_reconnect is true; with it disabled the manager never
regains a bound transport, with it enabled a schedule on which the loop
connects leaves the manager bound again. -/
theorem connection_lost_schedules_iff (c : Connection)
    (s : List AttemptResult) :
    (connection_lost c.auto_reconnect).isSome = c.auto_reconnect ∧
    (c.auto_reconnect = false → boundAfterLoss c s = false) ∧
    (c.auto_reconnect = true →
      (∃ c2 sl, _reconnect c s = ReconnectOutcome.connected c2 sl) →
      boundAfterLoss c s = true) := by
  refine ⟨?_, ?_, ?_⟩
  · cases hb : c.auto_reconnect <;> simp [connection_lost, hb]
  · intro hb
    simp [boundAfterLoss, connection_lost, hb]
  · rintro hb ⟨c2, sl, hr⟩
    simp [boundAfterLoss, connection_lost, hb, hr]

/-- Witness for C7: concrete connection with auto_reconnect on and an
immediately successful schedule. -/
theorem connection_lost_schedules_iff_witness :
    boundAfterLoss ⟨some "localhost", 6379, none, true, (1 : ℚ)/2⟩
      [AttemptResult.success] = true :=
  (connection_lost_schedules_iff
      ⟨some "localhost", 6379, none, true, (1 : ℚ)/2⟩
      [AttemptResult.success]).2.2 rfl
    ⟨_reset_retry_interval ⟨some "localhost", 6379, none, true, (1 : ℚ)/2⟩,
      [], rfl⟩

/-- Claim C8, counterexample: a create call supplying both endpoint forms
(host and port together with a unix socket path) is accepted, not
rejected: create performs no endpoint validation, and the constructed
connection stores both forms. -/
theorem create_accepts_both_forms :
    Connection.create (some "localhost") 6379 true (some "/tmp/redis.sock")
      = Except.ok
          ⟨some "localhost", 6379, some "/tmp/redis.sock", true, (1 : ℚ)/2⟩ :=
  rfl

/-- Claim C8, amended: create accepts any combination of the two endpoint
forms without validation and stores all endpoint fields as given; when a
unix socket path is supplied alongside host and port, only the unix socket
form is used by a connect attempt. -/
theorem create_no_validation (h : Option String) (p : Nat) (b : Bool)
    (u : Option String) :
    Connection.create h p b u = Except.ok ⟨h, p, u, b, (1 : ℚ)/2⟩ ∧
    (∀ path, u = some path →
      attemptTarget ⟨h, p, u, b, (1 : ℚ)/2⟩ = Target.unix path) := by
  refine ⟨rfl, fun path hu => ?_⟩
  simp [attemptTarget, hu]

/-- Witness for C8 amended: both forms supplied, construction succeeds and
the unix socket is the attempt target. -/
theorem create_no_validation_witness :
    Connection.create (some "h") 1 false (some "/s")
      = Except.ok ⟨some "h", 1, some "/s", false, (1 : ℚ)/2⟩ ∧
    attemptTarget ⟨some "h", 1, some "/s", false, (1 : ℚ)/2⟩
      = Target.unix "/s" :=
  ⟨(create_no_validation (some "h") 1 false (some "/s")).1,
    (create_no_validation (some "h") 1 false (some "/s")).2 "/s" rfl⟩

/-- Claim C9: whenever unixsocket is set, every attempt the reconnect loop
makes targets the unix domain socket path, never the stored host and
port. -/
theorem unixsocket_precedence (c : Connection) (p : String)
    (s : List AttemptResult) (h : c.unixsocket = some p) :
    attemptTarget c = Target.unix p ∧
    ∀ t ∈ attemptsOf c s, t = Target.unix p := by
  have ha : attemptTarget c = Target.unix p := by simp [attemptTarget, h]
  exact ⟨ha, fun t ht => by rw [attemptsOf_mem s c t ht, ha]⟩

/-- Witness for C9 at a concrete connection with a unix socket set. -/
theorem unixsocket_precedence_witness :
    attemptTarget ⟨some "localhost", 6379, some "/s", true, (1 : ℚ)/2⟩
      = Target.unix "/s" :=
  (unixsocket_precedence ⟨some "localhost", 6379, some "/s", true, (1 : ℚ)/2⟩
    "/s" [AttemptResult.osError, AttemptResult.success] rfl).1

/-- Claim C10: the increase operation is idempotent at the ceiling: for
any interval of at least 40, one increase yields exactly 60, and every
further increase leaves it at exactly 60. -/
theorem increase_idempotent_at_ceiling (x : ℚ) (h : 40 ≤ x) (n : ℕ) :
    increaseInterval x = 60 ∧ iterIncrease (increaseInterval x) n = 60 := by
  have h1 : increaseInterval x = 60 := min_eq_left (by linarith)
  refine ⟨h1, ?_⟩
  induction n with
  | zero => exact h1
  | succ n ih =>
      show increaseInterval (iterIncrease (increaseInterval x) n) = 60
      rw [ih]
      exact min_eq_left (by norm_num)

/-- Witness for C10 at interval 40 and five further increases. -/
theorem increase_idempotent_at_ceiling_witness :
    (40 : ℚ) ≤ 40 ∧ increaseInterval 40 = 60 ∧
      iterIncrease (increaseInterval 40) 5 = 60 :=
  ⟨le_refl 40, (increase_idempotent_at_ceiling 40 (le_refl 40) 5).1,
    (increase_idempotent_at_ceiling 40 (le_refl 40) 5).2⟩

end AsyncioRedis
